import Mathlib

/-!
Verification of the forex-server prediction pipeline (src/app.py).

The embedding models the `predict` endpoint of src/app.py over an explicit
storage state.  Datetimes are modelled as whole seconds since the Unix epoch
(`datetime.utcnow()` is naive UTC, `pd.DateOffset(days = n)` on a naive
timestamp adds `n * 86400` seconds, `hours = n` adds `n * 3600` seconds, and
`datetime.replace` truncation is modulo arithmetic).  Prices are modelled as
integers: the pipeline only ever compares them for equality and moves them
around, so any type with decidable equality is faithful.

The repository ships only src/app.py; the `db.service` storage layer and the
`prediction` module it imports are absent, so those collaborators are
modelled from the spec (sections 3, 6 and 4.4), each marked
`Modelled from the spec:` in its doc comment.
-/

namespace ForexServer

/-- One OHLCV bar as received by the predict endpoint
(src/app.py, `class OHLCData`). -/
structure OHLCData where
  Open : Int
  High : Int
  Low : Int
  Close : Int
  Volume : Int
deriving DecidableEq, Repr

/-- Modelled from the spec: a stored prediction row (the db model behind
`db.service`, spec section 3 `PredictionPoint` plus its `PredictionKey`):
currency-pair id, period id, model id, target timestamp, predicted value,
and the anchor close `last_live_value` the batch was computed from. -/
structure Pred where
  pairId : Nat
  periodId : Nat
  modelId : Nat
  date : Nat
  value : Int
  last_live_value : Int
deriving DecidableEq, Repr

/-- The (pair, period, model, timestamp) primary key of a stored prediction
(spec section 3, `PredictionKey`). -/
def Pred.key (p : Pred) : Nat × Nat × Nat × Nat :=
  (p.pairId, p.periodId, p.modelId, p.date)

/-- Python `str.upper()` applied by src/app.py line 94 to the currency pair. -/
def py_upper (s : String) : String := ⟨s.data.map Char.toUpper⟩

/-- Python `str.lower()` applied by src/app.py line 100 to the period. -/
def py_lower (s : String) : String := ⟨s.data.map Char.toLower⟩

/-- src/app.py `match_date_to_period(period, offset)`: for `'d1'` the start of
the current UTC day plus `offset + 1` days, for `'h1'` the start of the
current hour plus `offset` hours, otherwise `now` unchanged.  The ambient
`datetime.utcnow()` is passed explicitly as `now` (seconds since epoch). -/
def match_date_to_period (period : String) (offset : Nat) (now : Nat) : Nat :=
  if period = "d1" then (now - now % 86400) + 86400 * (offset + 1)
  else if period = "h1" then (now - now % 3600) + 3600 * offset
  else now

/-- Modelled from the spec: the storage lookup tables consumed by
src/app.py (spec section 6) together with the opaque trained model/scaler
supplier: `pairs`, `periods` and `models` map names to record ids,
`artifacts` lists the (pair, period) combinations for which
`load_model_and_scaler` succeeds, `warmupLength` is the indicator warm-up
(spec sections 4.1 and 8: the fixed number of leading rows whose RSI/MACD
values are undefined and are dropped — deterministic, `inputLength −
warmupLength` rows survive), `windowLength` is the model's required input
window (spec sections 3 and 4.2: a constant tied to the loaded artifact),
and `infer` is the opaque one-step inference of the trained model on the
scaled trailing window — a deterministic function of pair, period, the
preprocessed window, optional sentiment score and step index, per spec
section 4.3. -/
structure Env where
  pairs : List (String × Nat)
  periods : List (String × Nat)
  models : List (String × Nat)
  artifacts : List (String × String)
  warmupLength : Nat
  windowLength : Nat
  infer : String → String → List OHLCData → Option Int → Nat → Int

/-- Modelled from the spec: name lookup in a storage table
(`service.get_currency_pair` / `service.get_period` /
`service.get_prediction_model`); an unknown name yields `none`. -/
def lookupName (t : List (String × Nat)) (n : String) : Option Nat :=
  (t.find? (fun r => r.1 == n)).map (·.2)

/-- Modelled from the spec (section 6, `getPredictionAt`):
`service.get_prediction_by_date` returns the stored row at the
(pair, period, model, timestamp) key, if any. -/
def get_prediction_by_date (st : List Pred) (cp pd m d : Nat) : Option Pred :=
  st.find? (fun p => decide (p.key = (cp, pd, m, d)))

/-- Modelled from the spec (sections 3 and 6): `service.update_prediction`
overwrites value and anchor of the stored row at the key, in place. -/
def update_prediction : List Pred → Nat → Nat → Nat → Nat → Int → Int → List Pred
  | [], _, _, _, _, _, _ => []
  | p :: rest, cp, pd, m, d, v, a =>
    if p.key = (cp, pd, m, d) then
      { p with value := v, last_live_value := a } :: rest
    else
      p :: update_prediction rest cp pd m d v a

/-- Modelled from the spec (section 6): `service.create_prediction` inserts a
new row for the key. -/
def create_prediction (st : List Pred) (cp pd m d : Nat) (v a : Int) : List Pred :=
  st ++ [⟨cp, pd, m, d, v, a⟩]

/-- The upsert-by-key performed by the loop body of src/app.py lines 144-160:
look the key up, update the row when present, insert otherwise. -/
def upsert_prediction (st : List Pred) (cp pd m d : Nat) (v a : Int) : List Pred :=
  match get_prediction_by_date st cp pd m d with
  | some _ => update_prediction st cp pd m d v a
  | none => create_prediction st cp pd m d v a

/-- Insert a row into a date-sorted list, keeping ascending dates
(stable: an equal date goes before the existing rows). -/
def insertByDate (p : Pred) : List Pred → List Pred
  | [] => [p]
  | q :: rest => if p.date ≤ q.date then p :: q :: rest else q :: insertByDate p rest

/-- Sort stored rows by ascending target timestamp (insertion sort). -/
def sortByDate : List Pred → List Pred
  | [] => []
  | p :: rest => insertByDate p (sortByDate rest)

/-- Modelled from the spec (section 6, `getPredictionsInRange`):
`service.get_n_future_predictions` returns the rows of the
(pair, period, model) triple dated at or after `fromDate`, in ascending
date order, limited to the first `n`. -/
def get_n_future_predictions (st : List Pred) (cp pd m fromDate n : Nat) : List Pred :=
  (sortByDate (st.filter fun p =>
    decide (p.pairId = cp ∧ p.periodId = pd ∧ p.modelId = m ∧ fromDate ≤ p.date))).take n

/-- Modelled from the spec: `service.get_all_predictions` returns every
stored row of the (pair, period, model) triple, in storage order. -/
def get_all_predictions (st : List Pred) (cp pd m : Nat) : List Pred :=
  st.filter fun p => decide (p.pairId = cp ∧ p.periodId = pd ∧ p.modelId = m)

/-- Modelled from the spec (section 4.3): `get_multiple_predictions` runs the
multi-step autoregressive rollout on an already-preprocessed input window
(the rollout itself is total: it feeds its own predictions back, so given a
valid window it produces exactly `N = 5` chronological values), step `i`
given by the opaque deterministic inference `env.infer`. -/
def get_multiple_predictions (env : Env) (cp pd : String) (sequences : List OHLCData)
    (sentiment : Option Int) : List Int :=
  (List.range 5).map (env.infer cp pd sequences sentiment)

/-- The exceptions that can escape the body of `predict` in src/app.py:
an explicitly raised `fastapi.HTTPException` (status, detail), the
`FileNotFoundError` raised by `load_model_and_scaler` when no artifact
exists, and any other Python exception. -/
inductive Exn where
  | httpExc : Nat → String → Exn
  | fileNotFound : String → Exn
  | pyError : String → Exn
deriving DecidableEq, Repr

/-- Modelled from the spec (sections 4.1, 4.2, 7 and 8): the indicator
enrichment, warm-up drop and sequence construction of src/app.py lines
124-131.  Exactly `inputLength − warmupLength` rows survive the NaN drop
(section 8), and building the model input from the trailing `windowLength`
surviving rows fails with `InsufficientHistory` when fewer rows remain than
the model requires (sections 4.2 and 7); the boundary of section 8 holds:
exactly `windowLength + warmupLength` bars succeed, one less fails.  The
failure surfaces as a Python exception, which the endpoint's blanket
handler maps to a generic 500. -/
def preprocess_data (env : Env) (data : List OHLCData) : Except Exn (List OHLCData) :=
  if env.windowLength + env.warmupLength ≤ data.length then
    .ok (data.drop (data.length - env.windowLength))
  else
    .error (.pyError "InsufficientHistory: fewer usable rows than the model window")

/-- One returned series point: src/app.py lines 166-174 map each stored row
to `{"value": pred.value, "time": pred.date}`. -/
structure SeriesPoint where
  value : Int
  time : Nat
deriving DecidableEq, Repr

/-- The JSON body returned by `predict` (src/app.py lines 176-179). -/
structure PredictOut where
  LSTM_predictions : List SeriesPoint
  LSTM_sentiment_predictions : List SeriesPoint
deriving DecidableEq, Repr

/-- Result of one successful `predict` call: the returned body, the storage
state after the call, and how many `get_multiple_predictions` rollouts the
call performed (0 when served from cache, 1 or 2 on recompute). -/
structure PredictRes where
  out : PredictOut
  state : List Pred
  inferCalls : Nat
deriving DecidableEq, Repr

/-- Read-back of both model series (src/app.py lines 163-174). -/
def readOut (st : List Pred) (cpId pdId mId msId : Nat) : PredictOut :=
  ⟨(get_all_predictions st cpId pdId mId).map (fun p => ⟨p.value, p.date⟩),
   (get_all_predictions st cpId pdId msId).map (fun p => ⟨p.value, p.date⟩)⟩

/-- One iteration of the storage loop of src/app.py lines 141-160: upsert the
plain LSTM prediction for offset `i`, then the sentiment prediction, both at
`match_date_to_period period i` and anchored at `a = last_data_value`. -/
def upsertStep (cpId pdId mId msId : Nat) (pd : String) (now : Nat)
    (preds predsSent : List Int) (a : Int) (st : List Pred) (i : Nat) : List Pred :=
  let d := match_date_to_period pd i now
  let st1 := upsert_prediction st cpId pdId mId d (preds.getD i 0) a
  upsert_prediction st1 cpId pdId msId d (predsSent.getD i 0) a

/-- The sentiment-variant series of src/app.py lines 135-138:
a copy of the plain predictions when no sentiment score is supplied,
otherwise a second rollout with the score injected. -/
def sentimentSeries (env : Env) (cp pd : String) (data : List OHLCData) :
    Option Int → List Int
  | none => get_multiple_predictions env cp pd data none
  | some sc => get_multiple_predictions env cp pd data (some sc)

/-- Number of `get_multiple_predictions` rollouts a recompute performs:
one for the plain series, plus one more only when a sentiment score is
supplied (src/app.py lines 134-138). -/
def inferCallCount : Option Int → Nat
  | none => 1
  | some _ => 2

/-- The storage state after the recompute loop of src/app.py lines 141-160. -/
def recomputeState (env : Env) (cpId pdId mId msId : Nat) (cp pd : String)
    (data : List OHLCData) (s : Option Int) (a : Int) (now : Nat)
    (st : List Pred) : List Pred :=
  (List.range 5).foldl
    (upsertStep cpId pdId mId msId pd now
      (get_multiple_predictions env cp pd data none)
      (sentimentSeries env cp pd data s) a) st

/-- The body of the `predict` endpoint of src/app.py lines 89-179 (the code
inside the `try`), over explicit storage state `st` and clock `now`.
Mirrors the source line by line: validate pair (uppercased) and period
(lowercased), fetch the two model records, take the last bar's Close as the
anchor, serve from cache when at least 5 future plain-LSTM rows exist from
the aligned timestamp and the first row's anchor matches, otherwise load the
artifact (`FileNotFoundError` when absent), enrich and preprocess the bars
(failing with `InsufficientHistory` before any rollout when too few usable
rows remain), run the rollouts on the preprocessed window and upsert all
five offsets for both model variants, finally read back both full series. -/
def predict (env : Env) (st : List Pred) (currency_pair period : String)
    (data : List OHLCData) (sentimentScore : Option Int) (now : Nat) :
    Except Exn PredictRes :=
  let cp := py_upper currency_pair
  match lookupName env.pairs cp with
  | none => .error (.httpExc 400 "Unsupported currency pair")
  | some cpId =>
    let pd := py_lower period
    match lookupName env.periods pd with
    | none => .error (.httpExc 400 "Unsupported period")
    | some pdId =>
      match lookupName env.models "LSTM", lookupName env.models "LSTM_Sentiment" with
      | some mId, some msId =>
        match data.getLast? with
        | none => .error (.pyError "single positional indexer is out-of-bounds")
        | some lastBar =>
          let last_data_value := lastBar.Close
          let matched_date := match_date_to_period pd 0 now
          let existing := get_n_future_predictions st cpId pdId mId matched_date 5
          if 5 ≤ existing.length ∧
              existing.head?.map Pred.last_live_value = some last_data_value then
            .ok ⟨readOut st cpId pdId mId msId, st, 0⟩
          else if (cp, pd) ∈ env.artifacts then
            match preprocess_data env data with
            | .error e => .error e
            | .ok sequences =>
              let st2 := recomputeState env cpId pdId mId msId cp pd sequences
                sentimentScore last_data_value now st
              .ok ⟨readOut st2 cpId pdId mId msId, st2, inferCallCount sentimentScore⟩
          else
            .error (.fileNotFound ("Model or scaler not found for " ++ cp ++ " " ++ pd))
      | some _, none => .error (.pyError "NoneType object has no attribute id")
      | none, _ => .error (.pyError "NoneType object has no attribute id")

/-- Python `str(e)` of the exceptions of `predict` (`starlette.HTTPException`
renders as "status: detail"). -/
def exnStr : Exn → String
  | .httpExc c d => toString c ++ ": " ++ d
  | .fileNotFound m => m
  | .pyError m => m

/-- The HTTP surface of `predict`: src/app.py lines 181-185.  The
`except FileNotFoundError` handler maps artifact misses to 404; everything
else that escapes the `try` — including the `HTTPException(400)`s raised by
the validation code, since `HTTPException` subclasses `Exception` — is
caught by `except Exception` and re-raised as a generic 500. -/
def predict_endpoint (env : Env) (st : List Pred) (currency_pair period : String)
    (data : List OHLCData) (sentimentScore : Option Int) (now : Nat) :
    Except (Nat × String) PredictOut :=
  match predict env st currency_pair period data sentimentScore now with
  | .ok r => .ok r.out
  | .error (.fileNotFound m) => .error (404, m)
  | .error e => .error (500, "Error during prediction: " ++ exnStr e)

/-- Storage well-formedness (spec section 3): the
(pair, period, model, timestamp) key is unique across stored rows. -/
def WFState (st : List Pred) : Prop :=
  st.Pairwise (fun p q => p.key ≠ q.key)

/-- A small concrete storage environment used to instantiate the theorems:
one currency pair, both bucketed periods plus an artifact-less one, both
model records, a 2-row indicator warm-up, a 3-row model window, and a
deterministic inference stub. -/
def envDemo : Env where
  pairs := [("EURUSD", 1)]
  periods := [("d1", 1), ("h1", 2), ("m30", 3)]
  models := [("LSTM", 1), ("LSTM_Sentiment", 2)]
  artifacts := [("EURUSD", "h1"), ("EURUSD", "d1")]
  warmupLength := 2
  windowLength := 3
  infer := fun _ _ _ s i => (match s with | none => (100 : Int) | some v => 100 + v) + i

/-- A five-bar input history used to instantiate the theorems: exactly
`windowLength + warmupLength` rows for `envDemo`, so preprocessing succeeds
at the section-8 boundary; the last Close, the anchor, is 7. -/
def barsDemo : List OHLCData :=
  [⟨1, 1, 1, 1, 1⟩, ⟨1, 1, 1, 2, 1⟩, ⟨1, 1, 1, 3, 1⟩, ⟨1, 1, 1, 5, 1⟩, ⟨1, 2, 0, 7, 5⟩]

end ForexServer

namespace ForexServer

lemma key_set_value (p : Pred) (v a : Int) :
    ({ p with value := v, last_live_value := a } : Pred).key = p.key := rfl

lemma get_prediction_by_date_nil (cp pd m d : Nat) :
    get_prediction_by_date [] cp pd m d = none := rfl

lemma get_prediction_by_date_cons (p : Pred) (rest : List Pred) (cp pd m d : Nat) :
    get_prediction_by_date (p :: rest) cp pd m d =
      if p.key = (cp, pd, m, d) then some p else get_prediction_by_date rest cp pd m d := by
  unfold get_prediction_by_date
  rw [List.find?_cons]
  by_cases h : p.key = (cp, pd, m, d) <;> simp [h]

lemma key_of_find (st : List Pred) (cp pd m d : Nat) (p : Pred)
    (h : get_prediction_by_date st cp pd m d = some p) :
    p.key = (cp, pd, m, d) ∧ p ∈ st := by
  refine ⟨?_, List.mem_of_find?_eq_some h⟩
  have := List.find?_some h
  simpa using this

lemma get_prediction_by_date_congr (st : List Pred) {cp pd m d cp' pd' m' d' : Nat}
    (h : (cp', pd', m', d') = (cp, pd, m, d)) :
    get_prediction_by_date st cp' pd' m' d' = get_prediction_by_date st cp pd m d := by
  obtain ⟨h1, h2, h3, h4⟩ : cp' = cp ∧ pd' = pd ∧ m' = m ∧ d' = d := by
    simpa [Prod.ext_iff] using h
  rw [h1, h2, h3, h4]

lemma get_prediction_by_date_update (st : List Pred) (cp pd m d : Nat) (v a : Int)
    (cp' pd' m' d' : Nat) :
    get_prediction_by_date (update_prediction st cp pd m d v a) cp' pd' m' d' =
      if (cp', pd', m', d') = (cp, pd, m, d) then
        (get_prediction_by_date st cp pd m d).map
          (fun p => { p with value := v, last_live_value := a })
      else get_prediction_by_date st cp' pd' m' d' := by
  induction st with
  | nil =>
    simp only [update_prediction, get_prediction_by_date_nil, Option.map_none']
    split <;> rfl
  | cons p rest ih =>
    by_cases hq : (cp', pd', m', d') = (cp, pd, m, d)
    · obtain ⟨h1, h2, h3, h4⟩ : cp' = cp ∧ pd' = pd ∧ m' = m ∧ d' = d := by
        simpa [Prod.ext_iff] using hq
      simp only [h1, h2, h3, h4] at ih ⊢
      by_cases hp : p.key = (cp, pd, m, d)
      · simp [update_prediction, hp, get_prediction_by_date_cons, key_set_value]
      · simp [update_prediction, hp, get_prediction_by_date_cons, key_set_value, ih]
    · have hq' : ¬(cp = cp' ∧ pd = pd' ∧ m = m' ∧ d = d') := by
        rintro ⟨a1, a2, a3, a4⟩
        exact hq (by simp [a1, a2, a3, a4])
      by_cases hp : p.key = (cp, pd, m, d)
      · have hpq : ¬ p.key = (cp', pd', m', d') := fun h => hq (h.symm.trans hp)
        simp [update_prediction, hp, get_prediction_by_date_cons, key_set_value, hq, hpq, hq']
      · simp [update_prediction, hp, get_prediction_by_date_cons, key_set_value, hq, hq', ih]

lemma get_prediction_by_date_create (st : List Pred) (cp pd m d : Nat) (v a : Int)
    (cp' pd' m' d' : Nat) :
    get_prediction_by_date (create_prediction st cp pd m d v a) cp' pd' m' d' =
      (get_prediction_by_date st cp' pd' m' d').or
        (if (cp', pd', m', d') = (cp, pd, m, d) then some ⟨cp, pd, m, d, v, a⟩ else none) := by
  unfold create_prediction get_prediction_by_date
  rw [List.find?_append]
  congr 1
  by_cases hq : (cp', pd', m', d') = (cp, pd, m, d)
  · simp [List.find?, Pred.key, hq]
  · simp only [List.find?, if_neg hq]
    rw [decide_eq_false (by simp [Pred.key]; intro h1 h2 h3 h4; exact hq (by simp [h1, h2, h3, h4]))]

lemma get_prediction_by_date_upsert (st : List Pred) (cp pd m d : Nat) (v a : Int)
    (cp' pd' m' d' : Nat) :
    get_prediction_by_date (upsert_prediction st cp pd m d v a) cp' pd' m' d' =
      if (cp', pd', m', d') = (cp, pd, m, d) then some ⟨cp, pd, m, d, v, a⟩
      else get_prediction_by_date st cp' pd' m' d' := by
  by_cases hq : (cp', pd', m', d') = (cp, pd, m, d)
  · rw [if_pos hq, get_prediction_by_date_congr _ hq]
    unfold upsert_prediction
    cases hf : get_prediction_by_date st cp pd m d with
    | none =>
      rw [get_prediction_by_date_create, hf]
      simp
    | some p =>
      rw [get_prediction_by_date_update, if_pos rfl, hf]
      obtain ⟨hk, -⟩ := key_of_find st cp pd m d p hf
      rcases p with ⟨pa, pb, pc, pe, pv, pl⟩
      simp only [Pred.key, Prod.mk.injEq] at hk
      obtain ⟨e1, e2, e3, e4⟩ := hk
      simp [e1, e2, e3, e4]
  · rw [if_neg hq]
    unfold upsert_prediction
    cases hf : get_prediction_by_date st cp pd m d with
    | none =>
      rw [get_prediction_by_date_create, if_neg hq]
      simp
    | some p =>
      rw [get_prediction_by_date_update, if_neg hq]

end ForexServer

namespace ForexServer

lemma find_upsertStep (cpId pdId mId msId : Nat) (pd : String) (now : Nat)
    (preds psent : List Int) (a : Int) (st : List Pred) (i : Nat)
    (cp' pd' m' d' : Nat) :
    get_prediction_by_date (upsertStep cpId pdId mId msId pd now preds psent a st i)
        cp' pd' m' d' =
      if (cp', pd', m', d') = (cpId, pdId, msId, match_date_to_period pd i now) then
        some ⟨cpId, pdId, msId, match_date_to_period pd i now, psent.getD i 0, a⟩
      else if (cp', pd', m', d') = (cpId, pdId, mId, match_date_to_period pd i now) then
        some ⟨cpId, pdId, mId, match_date_to_period pd i now, preds.getD i 0, a⟩
      else get_prediction_by_date st cp' pd' m' d' := by
  simp only [upsertStep]
  rw [get_prediction_by_date_upsert, get_prediction_by_date_upsert]

lemma find_foldl_preserve (cpId pdId mId msId : Nat) (pd : String) (now : Nat)
    (preds psent : List Int) (a : Int) (l : List Nat) (st : List Pred)
    (cp' pd' m' d' : Nat)
    (h : ∀ i ∈ l,
      ¬(cp', pd', m', d') = (cpId, pdId, mId, match_date_to_period pd i now) ∧
      ¬(cp', pd', m', d') = (cpId, pdId, msId, match_date_to_period pd i now)) :
    get_prediction_by_date
        (l.foldl (upsertStep cpId pdId mId msId pd now preds psent a) st) cp' pd' m' d' =
      get_prediction_by_date st cp' pd' m' d' := by
  induction l generalizing st with
  | nil => rfl
  | cons i t ih =>
    rw [List.foldl_cons, ih _ (fun j hj => h j (List.mem_cons_of_mem _ hj)),
      find_upsertStep, if_neg (h i (List.mem_cons_self i t)).2,
      if_neg (h i (List.mem_cons_self i t)).1]

lemma find_foldl_anchor_preserved (cpId pdId mId msId : Nat) (pd : String) (now : Nat)
    (preds psent : List Int) (a : Int) (l : List Nat) (st : List Pred)
    (cp' pd' m' d' : Nat)
    (h : ∃ r, get_prediction_by_date st cp' pd' m' d' = some r ∧ r.last_live_value = a) :
    ∃ r, get_prediction_by_date
        (l.foldl (upsertStep cpId pdId mId msId pd now preds psent a) st) cp' pd' m' d' =
        some r ∧ r.last_live_value = a := by
  induction l generalizing st with
  | nil => exact h
  | cons i t ih =>
    rw [List.foldl_cons]
    apply ih
    rw [find_upsertStep]
    split_ifs with h1 h2
    · exact ⟨_, rfl, rfl⟩
    · exact ⟨_, rfl, rfl⟩
    · exact h

lemma find_foldl_anchor_in (cpId pdId mId msId : Nat) (pd : String) (now : Nat)
    (preds psent : List Int) (a : Int) (l : List Nat) (st : List Pred)
    (t : Nat) (ht : t = mId ∨ t = msId) (j : Nat) (hj : j ∈ l) :
    ∃ r, get_prediction_by_date
        (l.foldl (upsertStep cpId pdId mId msId pd now preds psent a) st)
        cpId pdId t (match_date_to_period pd j now) = some r ∧ r.last_live_value = a := by
  induction l generalizing st with
  | nil => exact absurd hj (List.not_mem_nil j)
  | cons i t' ih =>
    rw [List.foldl_cons]
    rcases List.mem_cons.mp hj with hji | hjt
    · subst hji
      apply find_foldl_anchor_preserved
      rw [find_upsertStep]
      split_ifs with h1 h2
      · exact ⟨_, rfl, rfl⟩
      · exact ⟨_, rfl, rfl⟩
      · rcases ht with h | h
        · exact absurd (by rw [h]) h2
        · exact absurd (by rw [h]) h1
    · exact ih _ hjt

lemma find_foldl_value_plain (cpId pdId mId msId : Nat) (pd : String) (now : Nat)
    (preds psent : List Int) (a : Int) (l : List Nat) (st : List Pred)
    (j : Nat) (hl : l.Nodup) (hj : j ∈ l)
    (hinj : ∀ i ∈ l, match_date_to_period pd i now = match_date_to_period pd j now → i = j)
    (hne : mId ≠ msId) :
    get_prediction_by_date
        (l.foldl (upsertStep cpId pdId mId msId pd now preds psent a) st)
        cpId pdId mId (match_date_to_period pd j now) =
      some ⟨cpId, pdId, mId, match_date_to_period pd j now, preds.getD j 0, a⟩ := by
  induction l generalizing st with
  | nil => exact absurd hj (List.not_mem_nil j)
  | cons i t' ih =>
    rw [List.foldl_cons]
    rcases List.mem_cons.mp hj with hji | hjt
    · subst hji
      have hnotin : j ∉ t' := (List.nodup_cons.mp hl).1
      rw [find_foldl_preserve]
      · rw [find_upsertStep,
          if_neg (fun h => hne (by simpa using congrArg (fun q => q.2.2.1) h)),
          if_pos rfl]
      · intro i' hi'
        refine ⟨fun h => ?_, fun h => ?_⟩
        · have hd : match_date_to_period pd i' now = match_date_to_period pd j now := by
            simpa using congrArg (fun q => q.2.2.2) h.symm
          have hij : i' = j := hinj i' (List.mem_cons_of_mem _ hi') hd
          exact hnotin (hij ▸ hi')
        · exact hne (by simpa using congrArg (fun q => q.2.2.1) h)
    · exact ih _ (List.nodup_cons.mp hl).2 hjt
        (fun i' hi' h => hinj i' (List.mem_cons_of_mem _ hi') h)

lemma find_foldl_value_sent (cpId pdId mId msId : Nat) (pd : String) (now : Nat)
    (preds psent : List Int) (a : Int) (l : List Nat) (st : List Pred)
    (j : Nat) (hl : l.Nodup) (hj : j ∈ l)
    (hinj : ∀ i ∈ l, match_date_to_period pd i now = match_date_to_period pd j now → i = j)
    (hne : mId ≠ msId) :
    get_prediction_by_date
        (l.foldl (upsertStep cpId pdId mId msId pd now preds psent a) st)
        cpId pdId msId (match_date_to_period pd j now) =
      some ⟨cpId, pdId, msId, match_date_to_period pd j now, psent.getD j 0, a⟩ := by
  induction l generalizing st with
  | nil => exact absurd hj (List.not_mem_nil j)
  | cons i t' ih =>
    rw [List.foldl_cons]
    rcases List.mem_cons.mp hj with hji | hjt
    · subst hji
      have hnotin : j ∉ t' := (List.nodup_cons.mp hl).1
      rw [find_foldl_preserve]
      · rw [find_upsertStep, if_pos rfl]
      · intro i' hi'
        refine ⟨fun h => ?_, fun h => ?_⟩
        · have hmm : msId = mId := by simpa using congrArg (fun q => q.2.2.1) h
          exact hne hmm.symm
        · have hd : match_date_to_period pd i' now = match_date_to_period pd j now := by
            simpa using congrArg (fun q => q.2.2.2) h.symm
          have hij : i' = j := hinj i' (List.mem_cons_of_mem _ hi') hd
          exact hnotin (hij ▸ hi')
    · exact ih _ (List.nodup_cons.mp hl).2 hjt
        (fun i' hi' h => hinj i' (List.mem_cons_of_mem _ hi') h)


lemma mem_update_key (st : List Pred) (cp pd m d : Nat) (v a : Int) (q : Pred)
    (hq : q ∈ update_prediction st cp pd m d v a) : ∃ q0 ∈ st, q.key = q0.key := by
  induction st with
  | nil => simp [update_prediction] at hq
  | cons p rest ih =>
    by_cases hp : p.key = (cp, pd, m, d)
    · rw [show update_prediction (p :: rest) cp pd m d v a =
        { p with value := v, last_live_value := a } :: rest by
          simp [update_prediction, hp]] at hq
      rcases List.mem_cons.mp hq with h | h
      · exact ⟨p, List.mem_cons_self p rest, by rw [h, key_set_value]⟩
      · exact ⟨q, List.mem_cons_of_mem _ h, rfl⟩
    · rw [show update_prediction (p :: rest) cp pd m d v a =
        p :: update_prediction rest cp pd m d v a by simp [update_prediction, hp]] at hq
      rcases List.mem_cons.mp hq with h | h
      · exact ⟨p, List.mem_cons_self p rest, by rw [h]⟩
      · obtain ⟨q0, hq0, hk⟩ := ih h
        exact ⟨q0, List.mem_cons_of_mem _ hq0, hk⟩

lemma WFState_update (st : List Pred) (cp pd m d : Nat) (v a : Int)
    (h : WFState st) : WFState (update_prediction st cp pd m d v a) := by
  induction st with
  | nil => exact h
  | cons p rest ih =>
    obtain ⟨hhead, htail⟩ := List.pairwise_cons.mp h
    by_cases hp : p.key = (cp, pd, m, d)
    · rw [show update_prediction (p :: rest) cp pd m d v a =
        { p with value := v, last_live_value := a } :: rest by simp [update_prediction, hp]]
      exact List.pairwise_cons.mpr
        ⟨fun q hq => by rw [key_set_value]; exact hhead q hq, htail⟩
    · rw [show update_prediction (p :: rest) cp pd m d v a =
        p :: update_prediction rest cp pd m d v a by simp [update_prediction, hp]]
      refine List.pairwise_cons.mpr ⟨fun q hq => ?_, ih htail⟩
      obtain ⟨q0, hq0, hk⟩ := mem_update_key rest cp pd m d v a q hq
      rw [hk]
      exact hhead q0 hq0

lemma WFState_create (st : List Pred) (cp pd m d : Nat) (v a : Int)
    (hf : get_prediction_by_date st cp pd m d = none) (h : WFState st) :
    WFState (create_prediction st cp pd m d v a) := by
  unfold create_prediction WFState
  rw [List.pairwise_append]
  refine ⟨h, List.pairwise_singleton _ _, fun q hq b hb => ?_⟩
  have hb1 : b = (⟨cp, pd, m, d, v, a⟩ : Pred) := by simpa using hb
  have hqk := List.find?_eq_none.mp hf q hq
  simp only [decide_eq_true_eq] at hqk
  rw [hb1]
  exact hqk

lemma WFState_upsert (st : List Pred) (cp pd m d : Nat) (v a : Int)
    (h : WFState st) : WFState (upsert_prediction st cp pd m d v a) := by
  unfold upsert_prediction
  cases hf : get_prediction_by_date st cp pd m d with
  | none => exact WFState_create st cp pd m d v a hf h
  | some p => exact WFState_update st cp pd m d v a h

lemma WFState_upsertStep (cpId pdId mId msId : Nat) (pd : String) (now : Nat)
    (preds psent : List Int) (a : Int) (st : List Pred) (i : Nat)
    (h : WFState st) :
    WFState (upsertStep cpId pdId mId msId pd now preds psent a st i) := by
  simp only [upsertStep]
  exact WFState_upsert _ _ _ _ _ _ _ (WFState_upsert _ _ _ _ _ _ _ h)

lemma WFState_foldl (cpId pdId mId msId : Nat) (pd : String) (now : Nat)
    (preds psent : List Int) (a : Int) (l : List Nat) (st : List Pred)
    (h : WFState st) :
    WFState (l.foldl (upsertStep cpId pdId mId msId pd now preds psent a) st) := by
  induction l generalizing st with
  | nil => exact h
  | cons i t ih => exact ih _ (WFState_upsertStep _ _ _ _ _ _ _ _ _ _ _ h)

lemma WFState_key_inj : ∀ st : List Pred, WFState st →
    ∀ p q : Pred, p ∈ st → q ∈ st → p.key = q.key → p = q := by
  intro st
  induction st with
  | nil =>
    intro _ p q hp _ _
    exact absurd hp (List.not_mem_nil p)
  | cons x rest ih =>
    intro h p q hp hq hk
    obtain ⟨hhead, htail⟩ := List.pairwise_cons.mp h
    rcases List.mem_cons.mp hp with h1 | h1 <;> rcases List.mem_cons.mp hq with h2 | h2
    · rw [h1, h2]
    · exact absurd (by rw [← h1]; exact hk) (hhead q h2)
    · exact absurd (by rw [← h2]; exact hk.symm) (hhead p h1)
    · exact ih htail p q h1 h2 hk

lemma mem_insertByDate (p q : Pred) (l : List Pred) :
    q ∈ insertByDate p l ↔ q = p ∨ q ∈ l := by
  induction l with
  | nil => simp [insertByDate]
  | cons r t ih =>
    unfold insertByDate
    by_cases hd : p.date ≤ r.date
    · simp [hd]
    · simp only [hd, if_false, List.mem_cons, ih]
      tauto

lemma length_insertByDate (p : Pred) (l : List Pred) :
    (insertByDate p l).length = l.length + 1 := by
  induction l with
  | nil => rfl
  | cons r t ih =>
    unfold insertByDate
    by_cases hd : p.date ≤ r.date
    · simp [hd]
    · simp [hd, ih]

lemma length_sortByDate (l : List Pred) : (sortByDate l).length = l.length := by
  induction l with
  | nil => rfl
  | cons p t ih => simp [sortByDate, length_insertByDate, ih]

lemma head_min_sortByDate : ∀ (l : List Pred) (q : Pred),
    (sortByDate l).head? = some q → q ∈ l ∧ ∀ p ∈ l, q.date ≤ p.date := by
  intro l
  induction l with
  | nil =>
    intro q h
    simp [sortByDate] at h
  | cons p rest ih =>
    intro q h
    rw [show sortByDate (p :: rest) = insertByDate p (sortByDate rest) from rfl] at h
    cases hs : sortByDate rest with
    | nil =>
      have hre : rest = [] := by
        have hlen := length_sortByDate rest
        rw [hs] at hlen
        exact List.length_eq_zero.mp hlen.symm
      rw [hs] at h
      simp only [insertByDate, List.head?_cons, Option.some.injEq] at h
      subst h
      refine ⟨List.mem_cons_self _ _, fun r hr => ?_⟩
      rcases List.mem_cons.mp hr with h1 | h1
      · rw [h1]
      · rw [hre] at h1
        exact absurd h1 (List.not_mem_nil r)
    | cons q0 t =>
      rw [hs] at h
      have hq0 := ih q0 (by rw [hs]; rfl)
      unfold insertByDate at h
      by_cases hd : p.date ≤ q0.date
      · rw [if_pos hd] at h
        simp only [List.head?_cons, Option.some.injEq] at h
        subst h
        refine ⟨List.mem_cons_self _ _, fun r hr => ?_⟩
        rcases List.mem_cons.mp hr with h1 | h1
        · rw [h1]
        · exact le_trans hd (hq0.2 r h1)
      · rw [if_neg hd] at h
        simp only [List.head?_cons, Option.some.injEq] at h
        subst h
        refine ⟨List.mem_cons_of_mem _ hq0.1, fun r hr => ?_⟩
        rcases List.mem_cons.mp hr with h1 | h1
        · rw [h1]
          exact le_of_not_le hd
        · exact hq0.2 r h1

lemma head_of_take (n : Nat) (l : List Pred) (hn : n ≠ 0) :
    (l.take n).head? = l.head? := by
  cases l with
  | nil => simp
  | cons a t =>
    cases n with
    | zero => exact absurd rfl hn
    | succ k => simp


lemma predict_eq (env : Env) (st : List Pred) (currency_pair period : String)
    (data : List OHLCData) (s : Option Int) (now : Nat)
    (cpId pdId mId msId : Nat) (lastBar : OHLCData)
    (hcp : lookupName env.pairs (py_upper currency_pair) = some cpId)
    (hpd : lookupName env.periods (py_lower period) = some pdId)
    (hm : lookupName env.models "LSTM" = some mId)
    (hms : lookupName env.models "LSTM_Sentiment" = some msId)
    (hd : data.getLast? = some lastBar) :
    predict env st currency_pair period data s now =
      if 5 ≤ (get_n_future_predictions st cpId pdId mId
            (match_date_to_period (py_lower period) 0 now) 5).length ∧
          (get_n_future_predictions st cpId pdId mId
            (match_date_to_period (py_lower period) 0 now) 5).head?.map Pred.last_live_value =
            some lastBar.Close then
        .ok ⟨readOut st cpId pdId mId msId, st, 0⟩
      else if (py_upper currency_pair, py_lower period) ∈ env.artifacts then
        match preprocess_data env data with
        | .error e => .error e
        | .ok sequences =>
          .ok ⟨readOut (recomputeState env cpId pdId mId msId (py_upper currency_pair)
              (py_lower period) sequences s lastBar.Close now st) cpId pdId mId msId,
            recomputeState env cpId pdId mId msId (py_upper currency_pair)
              (py_lower period) sequences s lastBar.Close now st, inferCallCount s⟩
      else .error (.fileNotFound ("Model or scaler not found for " ++ py_upper currency_pair
        ++ " " ++ py_lower period)) := by
  simp only [predict, hcp, hpd, hm, hms, hd]

lemma predict_eq_ok (env : Env) (st : List Pred) (currency_pair period : String)
    (data : List OHLCData) (s : Option Int) (now : Nat)
    (cpId pdId mId msId : Nat) (lastBar : OHLCData) (seqs : List OHLCData)
    (hcp : lookupName env.pairs (py_upper currency_pair) = some cpId)
    (hpd : lookupName env.periods (py_lower period) = some pdId)
    (hm : lookupName env.models "LSTM" = some mId)
    (hms : lookupName env.models "LSTM_Sentiment" = some msId)
    (hd : data.getLast? = some lastBar)
    (hpre : preprocess_data env data = .ok seqs) :
    predict env st currency_pair period data s now =
      if 5 ≤ (get_n_future_predictions st cpId pdId mId
            (match_date_to_period (py_lower period) 0 now) 5).length ∧
          (get_n_future_predictions st cpId pdId mId
            (match_date_to_period (py_lower period) 0 now) 5).head?.map Pred.last_live_value =
            some lastBar.Close then
        .ok ⟨readOut st cpId pdId mId msId, st, 0⟩
      else if (py_upper currency_pair, py_lower period) ∈ env.artifacts then
        .ok ⟨readOut (recomputeState env cpId pdId mId msId (py_upper currency_pair)
            (py_lower period) seqs s lastBar.Close now st) cpId pdId mId msId,
          recomputeState env cpId pdId mId msId (py_upper currency_pair)
            (py_lower period) seqs s lastBar.Close now st, inferCallCount s⟩
      else .error (.fileNotFound ("Model or scaler not found for " ++ py_upper currency_pair
        ++ " " ++ py_lower period)) := by
  rw [predict_eq env st currency_pair period data s now cpId pdId mId msId lastBar
    hcp hpd hm hms hd]
  simp only [hpre]

lemma predict_insufficient_history (env : Env) (st : List Pred)
    (currency_pair period : String) (data : List OHLCData) (s : Option Int)
    (now : Nat) (cpId pdId mId msId : Nat) (lastBar : OHLCData)
    (hcp : lookupName env.pairs (py_upper currency_pair) = some cpId)
    (hpd : lookupName env.periods (py_lower period) = some pdId)
    (hm : lookupName env.models "LSTM" = some mId)
    (hms : lookupName env.models "LSTM_Sentiment" = some msId)
    (hd : data.getLast? = some lastBar)
    (hcond : ¬(5 ≤ (get_n_future_predictions st cpId pdId mId
        (match_date_to_period (py_lower period) 0 now) 5).length ∧
      (get_n_future_predictions st cpId pdId mId
        (match_date_to_period (py_lower period) 0 now) 5).head?.map
          Pred.last_live_value = some lastBar.Close))
    (hart : (py_upper currency_pair, py_lower period) ∈ env.artifacts)
    (hshort : data.length < env.windowLength + env.warmupLength) :
    predict env st currency_pair period data s now =
      .error (.pyError "InsufficientHistory: fewer usable rows than the model window") := by
  rw [predict_eq env st currency_pair period data s now cpId pdId mId msId lastBar
    hcp hpd hm hms hd, if_neg hcond, if_pos hart]
  have hpre : preprocess_data env data =
      .error (.pyError "InsufficientHistory: fewer usable rows than the model window") := by
    unfold preprocess_data
    rw [if_neg (by omega)]
  simp only [hpre]

lemma match_date_h1 (k now : Nat) :
    match_date_to_period "h1" k now = (now - now % 3600) + 3600 * k := by
  unfold match_date_to_period
  rw [if_neg (by decide), if_pos rfl]

lemma match_date_d1 (k now : Nat) :
    match_date_to_period "d1" k now = (now - now % 86400) + 86400 * (k + 1) := by
  unfold match_date_to_period
  rw [if_pos rfl]

/-- C2 counterexample: the claim says that for period `'h1'` the target
timestamp is the start of the next hour boundary strictly after now, so with
now = 2024-01-01T10:17:00Z (= 1704104220 s) offset 0 should be
2024-01-01T11:00:00Z (= 1704106800 s) and offset 1 should be
2024-01-01T12:00:00Z (= 1704110400 s).  The code instead returns the start
of the *current* hour plus the offset: offset 0 gives 10:00
(= 1704103200 s) and offset 1 gives 11:00. -/
theorem C2_hour_bucket_counterexample :
    match_date_to_period "h1" 0 1704104220 = 1704103200 ∧
    match_date_to_period "h1" 0 1704104220 ≠ 1704106800 ∧
    match_date_to_period "h1" 1 1704104220 = 1704106800 ∧
    match_date_to_period "h1" 1 1704104220 ≠ 1704110400 := by
  decide

/-- C2 (amended): for period `'h1'` and every offset k, the computed target
timestamp is the start of the hour containing now (the unique hour boundary
at or before now) plus k whole hours; in particular with
now = 2024-01-01T10:17:00Z offset 0 yields 10:00 and offset 1 yields 11:00. -/
theorem C2_hour_bucket_amended (now k : Nat) :
    match_date_to_period "h1" k now % 3600 = 0 ∧
    match_date_to_period "h1" 0 now ≤ now ∧
    now < match_date_to_period "h1" 0 now + 3600 ∧
    match_date_to_period "h1" k now = match_date_to_period "h1" 0 now + 3600 * k := by
  simp only [match_date_h1]
  omega

/-- C3: for period `'d1'` and every offset k, the computed target timestamp
is the start of a day strictly later than now, namely the start of the
current day plus k + 1 days; offset 0 is never the current day. -/
theorem C3_day_bucket_strictly_future (now k : Nat) :
    match_date_to_period "d1" k now % 86400 = 0 ∧
    now < match_date_to_period "d1" k now ∧
    match_date_to_period "d1" k now = (now - now % 86400) + 86400 * (k + 1) := by
  refine ⟨?_, ?_, match_date_d1 k now⟩ <;> rw [match_date_d1] <;> omega

/-- C1: under a valid request (known pair and period, both model records and
a trained artifact present, and bars long enough for the preprocessing of
the recompute path to succeed), `predict` succeeds, and it
serves from the cache without recomputation (zero rollout calls, storage
untouched) if and only if at least 5 stored future predictions exist from
the aligned target timestamp for the (pair, period, plain-LSTM model)
triple and the anchor `last_live_value` of the first returned stored record
equals the caller-supplied last observed Close; when either condition
fails, the recompute path runs (at least one rollout). -/
theorem C1_serve_cached_iff (env : Env) (st : List Pred)
    (currency_pair period : String) (data : List OHLCData) (s : Option Int)
    (now : Nat) (cpId pdId mId msId : Nat) (lastBar : OHLCData)
    (hcp : lookupName env.pairs (py_upper currency_pair) = some cpId)
    (hpd : lookupName env.periods (py_lower period) = some pdId)
    (hm : lookupName env.models "LSTM" = some mId)
    (hms : lookupName env.models "LSTM_Sentiment" = some msId)
    (hd : data.getLast? = some lastBar)
    (hart : (py_upper currency_pair, py_lower period) ∈ env.artifacts)
    (hhist : env.windowLength + env.warmupLength ≤ data.length) :
    ∃ r, predict env st currency_pair period data s now = .ok r ∧
      ((r.inferCalls = 0 ∧ r.state = st) ↔
        (5 ≤ (get_n_future_predictions st cpId pdId mId
            (match_date_to_period (py_lower period) 0 now) 5).length ∧
          (get_n_future_predictions st cpId pdId mId
            (match_date_to_period (py_lower period) 0 now) 5).head?.map
              Pred.last_live_value = some lastBar.Close)) ∧
      (¬(5 ≤ (get_n_future_predictions st cpId pdId mId
            (match_date_to_period (py_lower period) 0 now) 5).length ∧
          (get_n_future_predictions st cpId pdId mId
            (match_date_to_period (py_lower period) 0 now) 5).head?.map
              Pred.last_live_value = some lastBar.Close) → 1 ≤ r.inferCalls) := by
  have hpre : preprocess_data env data = .ok (data.drop (data.length - env.windowLength)) := by
    unfold preprocess_data
    rw [if_pos hhist]
  rw [predict_eq_ok env st currency_pair period data s now cpId pdId mId msId lastBar
    (data.drop (data.length - env.windowLength)) hcp hpd hm hms hd hpre]
  by_cases hcond : (5 ≤ (get_n_future_predictions st cpId pdId mId
      (match_date_to_period (py_lower period) 0 now) 5).length ∧
    (get_n_future_predictions st cpId pdId mId
      (match_date_to_period (py_lower period) 0 now) 5).head?.map
        Pred.last_live_value = some lastBar.Close)
  · rw [if_pos hcond]
    exact ⟨_, rfl, by simpa using hcond, fun h => absurd hcond h⟩
  · rw [if_neg hcond, if_pos hart]
    refine ⟨_, rfl, ?_, ?_⟩
    · constructor
      · intro h0
        exact absurd h0.1 (by cases s <;> simp [inferCallCount])
      · intro h
        exact absurd h hcond
    · intro _
      cases s <;> simp [inferCallCount]

/-- C1 witness: on an empty storage the cache condition fails, so the valid
request recomputes (at least one rollout). -/
theorem C1_serve_cached_iff_witness :
    ∃ r, predict envDemo [] "eurusd" "H1" barsDemo none 1704104220 = .ok r ∧
      1 ≤ r.inferCalls := by
  obtain ⟨r, hok, hiff, himp⟩ := C1_serve_cached_iff envDemo [] "eurusd" "H1" barsDemo
    none 1704104220 1 2 1 2 ⟨1, 2, 0, 7, 5⟩ (by decide) (by decide) (by decide)
    (by decide) (by decide) (by decide) (by decide)
  exact ⟨r, hok, himp (by decide)⟩


/-- C5: staleness transition: when the caller-supplied last observed Close
differs from the anchor stored on the first cached prediction, `predict`
recomputes (at least one rollout) and upserts all 5 target timestamps for
both model variants, so that after the call every one of the stored points
at those keys carries the new anchor value.  Stated under sufficient
history, since a shorter input errors in preprocessing before any upsert. -/
theorem C5_stale_anchor_recompute_upserts (env : Env) (st : List Pred)
    (currency_pair period : String) (data : List OHLCData) (s : Option Int)
    (now : Nat) (cpId pdId mId msId : Nat) (lastBar : OHLCData) (p0 : Pred)
    (hcp : lookupName env.pairs (py_upper currency_pair) = some cpId)
    (hpd : lookupName env.periods (py_lower period) = some pdId)
    (hm : lookupName env.models "LSTM" = some mId)
    (hms : lookupName env.models "LSTM_Sentiment" = some msId)
    (hd : data.getLast? = some lastBar)
    (hart : (py_upper currency_pair, py_lower period) ∈ env.artifacts)
    (hhist : env.windowLength + env.warmupLength ≤ data.length)
    (hhead : (get_n_future_predictions st cpId pdId mId
        (match_date_to_period (py_lower period) 0 now) 5).head? = some p0)
    (hanchor : p0.last_live_value ≠ lastBar.Close) :
    ∃ r, predict env st currency_pair period data s now = .ok r ∧
      1 ≤ r.inferCalls ∧
      ∀ i < 5,
        (∃ q, get_prediction_by_date r.state cpId pdId mId
            (match_date_to_period (py_lower period) i now) = some q ∧
          q.last_live_value = lastBar.Close) ∧
        (∃ q, get_prediction_by_date r.state cpId pdId msId
            (match_date_to_period (py_lower period) i now) = some q ∧
          q.last_live_value = lastBar.Close) := by
  have hpre : preprocess_data env data = .ok (data.drop (data.length - env.windowLength)) := by
    unfold preprocess_data
    rw [if_pos hhist]
  rw [predict_eq_ok env st currency_pair period data s now cpId pdId mId msId lastBar
    (data.drop (data.length - env.windowLength)) hcp hpd hm hms hd hpre]
  have hcond : ¬(5 ≤ (get_n_future_predictions st cpId pdId mId
      (match_date_to_period (py_lower period) 0 now) 5).length ∧
    (get_n_future_predictions st cpId pdId mId
      (match_date_to_period (py_lower period) 0 now) 5).head?.map
        Pred.last_live_value = some lastBar.Close) := by
    rintro ⟨-, hmap⟩
    rw [hhead] at hmap
    simp only [Option.map_some', Option.some.injEq] at hmap
    exact hanchor hmap
  rw [if_neg hcond, if_pos hart]
  refine ⟨_, rfl, ?_, ?_⟩
  · cases s <;> simp [inferCallCount]
  · intro i hi
    constructor
    · simp only [recomputeState]
      exact find_foldl_anchor_in cpId pdId mId msId (py_lower period) now
        (get_multiple_predictions env (py_upper currency_pair) (py_lower period) (data.drop (data.length - env.windowLength)) none)
        (sentimentSeries env (py_upper currency_pair) (py_lower period) (data.drop (data.length - env.windowLength)) s)
        lastBar.Close (List.range 5) st mId (Or.inl rfl) i (List.mem_range.mpr hi)
    · simp only [recomputeState]
      exact find_foldl_anchor_in cpId pdId mId msId (py_lower period) now
        (get_multiple_predictions env (py_upper currency_pair) (py_lower period) (data.drop (data.length - env.windowLength)) none)
        (sentimentSeries env (py_upper currency_pair) (py_lower period) (data.drop (data.length - env.windowLength)) s)
        lastBar.Close (List.range 5) st msId (Or.inr rfl) i (List.mem_range.mpr hi)

/-- C5 witness: one stale stored point (anchor 99, request anchor 7) forces
the recompute, after which both variants carry the new anchor everywhere. -/
theorem C5_stale_anchor_recompute_upserts_witness :
    ∃ r, predict envDemo [⟨1, 2, 1, 1704106800, 50, 99⟩] "EURUSD" "h1" barsDemo
        none 1704104220 = .ok r ∧
      1 ≤ r.inferCalls ∧
      ∀ i < 5,
        (∃ q, get_prediction_by_date r.state 1 2 1
            (match_date_to_period (py_lower "h1") i 1704104220) = some q ∧
          q.last_live_value = (⟨1, 2, 0, 7, 5⟩ : OHLCData).Close) ∧
        (∃ q, get_prediction_by_date r.state 1 2 2
            (match_date_to_period (py_lower "h1") i 1704104220) = some q ∧
          q.last_live_value = (⟨1, 2, 0, 7, 5⟩ : OHLCData).Close) :=
  C5_stale_anchor_recompute_upserts envDemo [⟨1, 2, 1, 1704106800, 50, 99⟩]
    "EURUSD" "h1" barsDemo none 1704104220 1 2 1 2 ⟨1, 2, 0, 7, 5⟩
    ⟨1, 2, 1, 1704106800, 50, 99⟩ (by decide) (by decide) (by decide) (by decide)
    (by decide) (by decide) (by decide) (by decide) (by decide)

/-- C6 (code bug): a request naming a currency pair or period unknown to
storage is answered with the generic internal-error outcome
(HTTP 500, "Error during prediction: 400: ...") instead of a client input
error: the `HTTPException(400)` raised inside the `try` block of src/app.py
is itself an `Exception`, so the blanket `except Exception` handler at line
183 catches it and re-raises it as a 500.  The boundary layer therefore
cannot distinguish these validation failures from internal failures, which
is what the claim requires. -/
theorem C6_validation_error_shadowed_by_500 :
    predict_endpoint envDemo [] "ABCXYZ" "h1" barsDemo none 0 =
      .error (500, "Error during prediction: 400: Unsupported currency pair") ∧
    predict_endpoint envDemo [] "EURUSD" "m15" barsDemo none 0 =
      .error (500, "Error during prediction: 400: Unsupported period") ∧
    predict envDemo [] "ABCXYZ" "h1" barsDemo none 0 =
      .error (.httpExc 400 "Unsupported currency pair") ∧
    predict envDemo [] "EURUSD" "m15" barsDemo none 0 =
      .error (.httpExc 400 "Unsupported period") := by
  refine ⟨?_, ?_, ?_, ?_⟩ <;> rfl

/-- C7: when the pair and period are valid but no trained model/scaler
artifact exists for them, the recompute path fails with
`FileNotFoundError`, which the first handler of src/app.py (line 181) maps
to a not-found outcome, HTTP 404 — not a client-input 400 and not a
generic 500. -/
theorem C7_artifact_not_found_404 (env : Env) (st : List Pred)
    (currency_pair period : String) (data : List OHLCData) (s : Option Int)
    (now : Nat) (cpId pdId mId msId : Nat) (lastBar : OHLCData)
    (hcp : lookupName env.pairs (py_upper currency_pair) = some cpId)
    (hpd : lookupName env.periods (py_lower period) = some pdId)
    (hm : lookupName env.models "LSTM" = some mId)
    (hms : lookupName env.models "LSTM_Sentiment" = some msId)
    (hd : data.getLast? = some lastBar)
    (hcond : ¬(5 ≤ (get_n_future_predictions st cpId pdId mId
        (match_date_to_period (py_lower period) 0 now) 5).length ∧
      (get_n_future_predictions st cpId pdId mId
        (match_date_to_period (py_lower period) 0 now) 5).head?.map
          Pred.last_live_value = some lastBar.Close))
    (hart : (py_upper currency_pair, py_lower period) ∉ env.artifacts) :
    predict_endpoint env st currency_pair period data s now =
      .error (404, "Model or scaler not found for " ++ py_upper currency_pair
        ++ " " ++ py_lower period) := by
  unfold predict_endpoint
  rw [predict_eq env st currency_pair period data s now cpId pdId mId msId lastBar
    hcp hpd hm hms hd, if_neg hcond, if_neg hart]

/-- C7 witness: period "m30" exists in storage but has no trained artifact,
so the valid request is answered 404. -/
theorem C7_artifact_not_found_404_witness :
    predict_endpoint envDemo [] "EURUSD" "m30" barsDemo none 0 =
      .error (404, "Model or scaler not found for " ++ py_upper "EURUSD"
        ++ " " ++ py_lower "m30") :=
  C7_artifact_not_found_404 envDemo [] "EURUSD" "m30" barsDemo none 0 1 3 1 2
    ⟨1, 2, 0, 7, 5⟩ (by decide) (by decide) (by decide) (by decide) (by decide)
    (by decide) (by decide)

/-- C10: `predict` is invariant under the letter case of its pair and period
path identifiers: the pair is uppercased and the period lowercased before
any use, so two requests whose identifiers agree up to case produce the
same result on the same storage state. -/
theorem C10_case_insensitive_identifiers (env : Env) (st : List Pred)
    (p1 per1 p2 per2 : String) (data : List OHLCData) (s : Option Int) (now : Nat)
    (hp : py_upper p1 = py_upper p2) (hper : py_lower per1 = py_lower per2) :
    predict env st p1 per1 data s now = predict env st p2 per2 data s now := by
  unfold predict
  rw [hp, hper]

/-- C10 witness: "eurusd"/"H1" and "EURUSD"/"h1" give identical results. -/
theorem C10_case_insensitive_identifiers_witness :
    predict envDemo [] "eurusd" "H1" barsDemo none 1704104220 =
      predict envDemo [] "EURUSD" "h1" barsDemo none 1704104220 :=
  C10_case_insensitive_identifiers envDemo [] "eurusd" "H1" "EURUSD" "h1"
    barsDemo none 1704104220 (by decide) (by decide)


/-- C8: on every recompute with a bucketed period ('d1' or 'h1') and distinct
model records, `predict` stores exactly 5 predictions per model variant: the
5 target timestamps (offsets 0..4) are pairwise distinct, strictly
increasing and period-aligned, the i-th plain row holds the i-th rollout
value and the i-th sentiment row the i-th sentiment-series value, both
anchored at the request Close, and no other storage key is touched.  The
rollouts run on the preprocessed window `seqs`, so the statement assumes
preprocessing succeeded; a shorter history errors before storing anything. -/
theorem C8_recompute_stores_five (env : Env) (st : List Pred)
    (currency_pair period : String) (data : List OHLCData) (s : Option Int)
    (now : Nat) (cpId pdId mId msId : Nat) (lastBar : OHLCData)
    (seqs : List OHLCData)
    (hcp : lookupName env.pairs (py_upper currency_pair) = some cpId)
    (hpd : lookupName env.periods (py_lower period) = some pdId)
    (hm : lookupName env.models "LSTM" = some mId)
    (hms : lookupName env.models "LSTM_Sentiment" = some msId)
    (hd : data.getLast? = some lastBar)
    (hart : (py_upper currency_pair, py_lower period) ∈ env.artifacts)
    (hpre : preprocess_data env data = .ok seqs)
    (hcond : ¬(5 ≤ (get_n_future_predictions st cpId pdId mId
        (match_date_to_period (py_lower period) 0 now) 5).length ∧
      (get_n_future_predictions st cpId pdId mId
        (match_date_to_period (py_lower period) 0 now) 5).head?.map
          Pred.last_live_value = some lastBar.Close))
    (hper : py_lower period = "d1" ∨ py_lower period = "h1")
    (hne : mId ≠ msId) :
    ∃ r, predict env st currency_pair period data s now = .ok r ∧
      1 ≤ r.inferCalls ∧
      (∀ i j, i < j → j < 5 →
        match_date_to_period (py_lower period) i now <
          match_date_to_period (py_lower period) j now) ∧
      (∀ i < 5,
        get_prediction_by_date r.state cpId pdId mId
            (match_date_to_period (py_lower period) i now) =
          some ⟨cpId, pdId, mId, match_date_to_period (py_lower period) i now,
            (get_multiple_predictions env (py_upper currency_pair) (py_lower period)
              seqs none).getD i 0, lastBar.Close⟩ ∧
        get_prediction_by_date r.state cpId pdId msId
            (match_date_to_period (py_lower period) i now) =
          some ⟨cpId, pdId, msId, match_date_to_period (py_lower period) i now,
            (sentimentSeries env (py_upper currency_pair) (py_lower period)
              seqs s).getD i 0, lastBar.Close⟩) ∧
      (∀ cp' pd' m' d',
        (∀ i < 5,
          ¬(cp', pd', m', d') =
              (cpId, pdId, mId, match_date_to_period (py_lower period) i now) ∧
          ¬(cp', pd', m', d') =
              (cpId, pdId, msId, match_date_to_period (py_lower period) i now)) →
        get_prediction_by_date r.state cp' pd' m' d' =
          get_prediction_by_date st cp' pd' m' d') := by
  have hinj : ∀ j, j < 5 → ∀ i ∈ List.range 5,
      match_date_to_period (py_lower period) i now =
        match_date_to_period (py_lower period) j now → i = j := by
    intro j _ i _ hd2
    rcases hper with h | h <;> rw [h] at hd2
    · rw [match_date_d1, match_date_d1] at hd2
      omega
    · rw [match_date_h1, match_date_h1] at hd2
      omega
  rw [predict_eq_ok env st currency_pair period data s now cpId pdId mId msId lastBar
    seqs hcp hpd hm hms hd hpre, if_neg hcond, if_pos hart]
  refine ⟨_, rfl, ?_, ?_, ?_, ?_⟩
  · cases s <;> simp [inferCallCount]
  · intro i j hij _
    rcases hper with h | h <;> rw [h]
    · rw [match_date_d1, match_date_d1]
      omega
    · rw [match_date_h1, match_date_h1]
      omega
  · intro i hi
    constructor
    · exact find_foldl_value_plain cpId pdId mId msId (py_lower period) now
        (get_multiple_predictions env (py_upper currency_pair) (py_lower period) seqs none)
        (sentimentSeries env (py_upper currency_pair) (py_lower period) seqs s)
        lastBar.Close (List.range 5) st i (List.nodup_range 5)
        (List.mem_range.mpr hi) (hinj i hi) hne
    · exact find_foldl_value_sent cpId pdId mId msId (py_lower period) now
        (get_multiple_predictions env (py_upper currency_pair) (py_lower period) seqs none)
        (sentimentSeries env (py_upper currency_pair) (py_lower period) seqs s)
        lastBar.Close (List.range 5) st i (List.nodup_range 5)
        (List.mem_range.mpr hi) (hinj i hi) hne
  · intro cp' pd' m' d' hk
    exact find_foldl_preserve cpId pdId mId msId (py_lower period) now
      (get_multiple_predictions env (py_upper currency_pair) (py_lower period) seqs none)
      (sentimentSeries env (py_upper currency_pair) (py_lower period) seqs s)
      lastBar.Close (List.range 5) st cp' pd' m' d'
      (fun i hi => hk i (List.mem_range.mp hi))

/-- C8 witness: recomputing on empty storage stores the offset-0 plain row
with the first rollout value, and hour buckets strictly increase. -/
theorem C8_recompute_stores_five_witness :
    ∃ r, predict envDemo [] "EURUSD" "h1" barsDemo none 1704104220 = .ok r ∧
      match_date_to_period (py_lower "h1") 0 1704104220 <
        match_date_to_period (py_lower "h1") 1 1704104220 ∧
      get_prediction_by_date r.state 1 2 1
          (match_date_to_period (py_lower "h1") 0 1704104220) =
        some ⟨1, 2, 1, match_date_to_period (py_lower "h1") 0 1704104220,
          (get_multiple_predictions envDemo (py_upper "EURUSD") (py_lower "h1")
            [⟨1, 1, 1, 3, 1⟩, ⟨1, 1, 1, 5, 1⟩, ⟨1, 2, 0, 7, 5⟩] none).getD 0 0,
          (⟨1, 2, 0, 7, 5⟩ : OHLCData).Close⟩ := by
  obtain ⟨r, hok, -, hmono, hvals, -⟩ := C8_recompute_stores_five envDemo []
    "EURUSD" "h1" barsDemo none 1704104220 1 2 1 2 ⟨1, 2, 0, 7, 5⟩
    [⟨1, 1, 1, 3, 1⟩, ⟨1, 1, 1, 5, 1⟩, ⟨1, 2, 0, 7, 5⟩] (by decide)
    (by decide) (by decide) (by decide) (by decide) (by decide) rfl
    (by decide) (Or.inr (by decide)) (by decide)
  exact ⟨r, hok, hmono 0 1 (by decide) (by decide), (hvals 0 (by decide)).1⟩

lemma get_prediction_by_date_append (st1 st2 : List Pred) (cp pd m d : Nat) :
    get_prediction_by_date (st1 ++ st2) cp pd m d =
      (get_prediction_by_date st1 cp pd m d).or (get_prediction_by_date st2 cp pd m d) :=
  List.find?_append

lemma get_all_empty_find_none (st : List Pred) (cp pd m : Nat)
    (h : get_all_predictions st cp pd m = []) (d : Nat) :
    get_prediction_by_date st cp pd m d = none := by
  cases hf : get_prediction_by_date st cp pd m d with
  | none => rfl
  | some q =>
    obtain ⟨hk, hmem⟩ := key_of_find st cp pd m d q hf
    have h2 := List.filter_eq_nil_iff.mp h q hmem
    simp only [decide_eq_true_eq] at h2
    obtain ⟨e1, e2, e3, e4⟩ : q.pairId = cp ∧ q.periodId = pd ∧ q.modelId = m ∧ q.date = d := by
      simpa [Pred.key, Prod.ext_iff] using hk
    exact absurd ⟨e1, e2, e3⟩ h2

lemma get_n_future_empty (st : List Pred) (cp pd m fromDate n : Nat)
    (h : get_all_predictions st cp pd m = []) :
    get_n_future_predictions st cp pd m fromDate n = [] := by
  unfold get_n_future_predictions
  rw [show st.filter (fun p =>
      decide (p.pairId = cp ∧ p.periodId = pd ∧ p.modelId = m ∧ fromDate ≤ p.date)) =
      ([] : List Pred) from ?_]
  · simp [sortByDate]
  · apply List.filter_eq_nil_iff.mpr
    intro p hp
    have h2 := List.filter_eq_nil_iff.mp h p hp
    simp only [decide_eq_true_eq] at h2 ⊢
    rintro ⟨e1, e2, e3, -⟩
    exact h2 ⟨e1, e2, e3⟩

lemma get_all_predictions_append (st1 st2 : List Pred) (cp pd m : Nat) :
    get_all_predictions (st1 ++ st2) cp pd m =
      get_all_predictions st1 cp pd m ++ get_all_predictions st2 cp pd m :=
  List.filter_append _ _

lemma foldl_creates (cpId pdId mId msId : Nat) (pd : String) (now : Nat)
    (preds psent : List Int) (a : Int) (hne : mId ≠ msId) :
    ∀ (l : List Nat) (st : List Pred),
      (∀ i ∈ l,
        get_prediction_by_date st cpId pdId mId (match_date_to_period pd i now) = none ∧
        get_prediction_by_date st cpId pdId msId (match_date_to_period pd i now) = none) →
      (∀ i ∈ l, ∀ j ∈ l,
        match_date_to_period pd i now = match_date_to_period pd j now → i = j) →
      l.Nodup →
      l.foldl (upsertStep cpId pdId mId msId pd now preds psent a) st =
        st ++ l.flatMap (fun i =>
          [⟨cpId, pdId, mId, match_date_to_period pd i now, preds.getD i 0, a⟩,
           ⟨cpId, pdId, msId, match_date_to_period pd i now, psent.getD i 0, a⟩]) := by
  intro l
  induction l with
  | nil =>
    intro st _ _ _
    simp
  | cons i t ih =>
    intro st hnone hinj hnd
    rw [List.foldl_cons, List.flatMap_cons]
    have h1 : upsert_prediction st cpId pdId mId (match_date_to_period pd i now)
        (preds.getD i 0) a =
        st ++ [⟨cpId, pdId, mId, match_date_to_period pd i now, preds.getD i 0, a⟩] := by
      unfold upsert_prediction
      rw [(hnone i (List.mem_cons_self i t)).1]
      rfl
    have hsing : get_prediction_by_date
        [(⟨cpId, pdId, mId, match_date_to_period pd i now, preds.getD i 0, a⟩ : Pred)]
        cpId pdId msId (match_date_to_period pd i now) = none := by
      rw [get_prediction_by_date_cons,
        if_neg (fun hk => hne (by simpa [Pred.key] using congrArg (fun q => q.2.2.1) hk)),
        get_prediction_by_date_nil]
    have h2 : get_prediction_by_date
        (st ++ [⟨cpId, pdId, mId, match_date_to_period pd i now, preds.getD i 0, a⟩])
        cpId pdId msId (match_date_to_period pd i now) = none := by
      rw [get_prediction_by_date_append, (hnone i (List.mem_cons_self i t)).2, hsing]
      rfl
    have hstep : upsertStep cpId pdId mId msId pd now preds psent a st i =
        st ++ [⟨cpId, pdId, mId, match_date_to_period pd i now, preds.getD i 0, a⟩,
               ⟨cpId, pdId, msId, match_date_to_period pd i now, psent.getD i 0, a⟩] := by
      simp only [upsertStep]
      rw [h1]
      unfold upsert_prediction
      rw [h2]
      show (st ++ [(⟨cpId, pdId, mId, match_date_to_period pd i now, preds.getD i 0, a⟩ : Pred)])
          ++ [⟨cpId, pdId, msId, match_date_to_period pd i now, psent.getD i 0, a⟩] = _
      exact List.append_assoc st _ _
    have hnone2 : ∀ i' ∈ t,
        get_prediction_by_date
          (st ++ [⟨cpId, pdId, mId, match_date_to_period pd i now, preds.getD i 0, a⟩,
                  ⟨cpId, pdId, msId, match_date_to_period pd i now, psent.getD i 0, a⟩])
          cpId pdId mId (match_date_to_period pd i' now) = none ∧
        get_prediction_by_date
          (st ++ [⟨cpId, pdId, mId, match_date_to_period pd i now, preds.getD i 0, a⟩,
                  ⟨cpId, pdId, msId, match_date_to_period pd i now, psent.getD i 0, a⟩])
          cpId pdId msId (match_date_to_period pd i' now) = none := by
      intro i' hi'
      have hdne : match_date_to_period pd i now ≠ match_date_to_period pd i' now := by
        intro hdd
        have hii : i = i' :=
          hinj i (List.mem_cons_self i t) i' (List.mem_cons_of_mem _ hi') hdd
        exact (List.nodup_cons.mp hnd).1 (by rw [hii]; exact hi')
      constructor
      · rw [get_prediction_by_date_append, (hnone i' (List.mem_cons_of_mem _ hi')).1,
          get_prediction_by_date_cons,
          if_neg (fun hk =>
            hdne (by simpa [Pred.key] using congrArg (fun q => q.2.2.2) hk)),
          get_prediction_by_date_cons,
          if_neg (fun hk => hne
            ((by simpa [Pred.key] using congrArg (fun q => q.2.2.1) hk : msId = mId)).symm),
          get_prediction_by_date_nil]
        rfl
      · rw [get_prediction_by_date_append, (hnone i' (List.mem_cons_of_mem _ hi')).2,
          get_prediction_by_date_cons,
          if_neg (fun hk => hne (by simpa [Pred.key] using congrArg (fun q => q.2.2.1) hk)),
          get_prediction_by_date_cons,
          if_neg (fun hk =>
            hdne (by simpa [Pred.key] using congrArg (fun q => q.2.2.2) hk)),
          get_prediction_by_date_nil]
        rfl
    rw [hstep, ih _ hnone2
      (fun i' hi' j' hj' =>
        hinj i' (List.mem_cons_of_mem _ hi') j' (List.mem_cons_of_mem _ hj'))
      (List.nodup_cons.mp hnd).2]
    exact List.append_assoc st _ _



lemma get_all_flatMap_plain (cpId pdId mId msId : Nat) (pd : String) (now : Nat)
    (preds psent : List Int) (a : Int) (hne : mId ≠ msId) (l : List Nat) :
    get_all_predictions (l.flatMap (fun i =>
      [⟨cpId, pdId, mId, match_date_to_period pd i now, preds.getD i 0, a⟩,
       ⟨cpId, pdId, msId, match_date_to_period pd i now, psent.getD i 0, a⟩]))
        cpId pdId mId =
      l.map (fun i =>
        ⟨cpId, pdId, mId, match_date_to_period pd i now, preds.getD i 0, a⟩) := by
  induction l with
  | nil => rfl
  | cons i t ih =>
    rw [List.flatMap_cons, get_all_predictions_append, ih, List.map_cons]
    have hhead : get_all_predictions
        [(⟨cpId, pdId, mId, match_date_to_period pd i now, preds.getD i 0, a⟩ : Pred),
         ⟨cpId, pdId, msId, match_date_to_period pd i now, psent.getD i 0, a⟩]
        cpId pdId mId =
        [⟨cpId, pdId, mId, match_date_to_period pd i now, preds.getD i 0, a⟩] := by
      simp [get_all_predictions, List.filter, Ne.symm hne]
    rw [hhead]
    rfl

lemma get_all_flatMap_sent (cpId pdId mId msId : Nat) (pd : String) (now : Nat)
    (preds psent : List Int) (a : Int) (hne : mId ≠ msId) (l : List Nat) :
    get_all_predictions (l.flatMap (fun i =>
      [⟨cpId, pdId, mId, match_date_to_period pd i now, preds.getD i 0, a⟩,
       ⟨cpId, pdId, msId, match_date_to_period pd i now, psent.getD i 0, a⟩]))
        cpId pdId msId =
      l.map (fun i =>
        ⟨cpId, pdId, msId, match_date_to_period pd i now, psent.getD i 0, a⟩) := by
  induction l with
  | nil => rfl
  | cons i t ih =>
    rw [List.flatMap_cons, get_all_predictions_append, ih, List.map_cons]
    have hhead : get_all_predictions
        [(⟨cpId, pdId, mId, match_date_to_period pd i now, preds.getD i 0, a⟩ : Pred),
         ⟨cpId, pdId, msId, match_date_to_period pd i now, psent.getD i 0, a⟩]
        cpId pdId msId =
        [⟨cpId, pdId, msId, match_date_to_period pd i now, psent.getD i 0, a⟩] := by
      simp [get_all_predictions, List.filter, hne]
    rw [hhead]
    rfl

/-- C9 (amended): when no sentiment score is supplied, the recompute path
runs a single rollout (`predictions_with_sentiment = predictions.copy()`,
src/app.py lines 135-138) on the preprocessed window and stores the same
value under both model variants at every one of the five target timestamps;
the *returned* series are value-for-value equal whenever storage holds no
other rows for the two model triples (for example fresh storage).  The
original claim's unconditional returned-series equality is false: residual
rows from an earlier sentiment-scored call make the read-back of src/app.py
lines 163-174 differ (see the counterexample). -/
theorem C9_none_sentiment_copies_plain (env : Env) (st : List Pred)
    (currency_pair period : String) (data : List OHLCData) (now : Nat)
    (cpId pdId mId msId : Nat) (lastBar : OHLCData) (seqs : List OHLCData)
    (hcp : lookupName env.pairs (py_upper currency_pair) = some cpId)
    (hpd : lookupName env.periods (py_lower period) = some pdId)
    (hm : lookupName env.models "LSTM" = some mId)
    (hms : lookupName env.models "LSTM_Sentiment" = some msId)
    (hd : data.getLast? = some lastBar)
    (hpre : preprocess_data env data = .ok seqs)
    (hart : (py_upper currency_pair, py_lower period) ∈ env.artifacts)
    (hper : py_lower period = "d1" ∨ py_lower period = "h1")
    (hne : mId ≠ msId)
    (hfreshP : get_all_predictions st cpId pdId mId = [])
    (hfreshS : get_all_predictions st cpId pdId msId = []) :
    ∃ r, predict env st currency_pair period data none now = .ok r ∧
      r.inferCalls = 1 ∧
      r.out.LSTM_sentiment_predictions = r.out.LSTM_predictions ∧
      ∀ i < 5,
        get_prediction_by_date r.state cpId pdId mId
            (match_date_to_period (py_lower period) i now) =
          some ⟨cpId, pdId, mId, match_date_to_period (py_lower period) i now,
            (get_multiple_predictions env (py_upper currency_pair) (py_lower period)
              seqs none).getD i 0, lastBar.Close⟩ ∧
        get_prediction_by_date r.state cpId pdId msId
            (match_date_to_period (py_lower period) i now) =
          some ⟨cpId, pdId, msId, match_date_to_period (py_lower period) i now,
            (get_multiple_predictions env (py_upper currency_pair) (py_lower period)
              seqs none).getD i 0, lastBar.Close⟩ := by
  have hcond : ¬(5 ≤ (get_n_future_predictions st cpId pdId mId
      (match_date_to_period (py_lower period) 0 now) 5).length ∧
    (get_n_future_predictions st cpId pdId mId
      (match_date_to_period (py_lower period) 0 now) 5).head?.map
        Pred.last_live_value = some lastBar.Close) := by
    rw [get_n_future_empty st cpId pdId mId _ 5 hfreshP]
    rintro ⟨h5, -⟩
    simp at h5
  have hinj : ∀ i ∈ List.range 5, ∀ j ∈ List.range 5,
      match_date_to_period (py_lower period) i now =
        match_date_to_period (py_lower period) j now → i = j := by
    intro i _ j _ hdd
    rcases hper with h | h <;> rw [h] at hdd
    · rw [match_date_d1, match_date_d1] at hdd
      omega
    · rw [match_date_h1, match_date_h1] at hdd
      omega
  have hnone : ∀ i ∈ List.range 5,
      get_prediction_by_date st cpId pdId mId
        (match_date_to_period (py_lower period) i now) = none ∧
      get_prediction_by_date st cpId pdId msId
        (match_date_to_period (py_lower period) i now) = none :=
    fun i _ => ⟨get_all_empty_find_none st cpId pdId mId hfreshP _,
                get_all_empty_find_none st cpId pdId msId hfreshS _⟩
  have hstate : recomputeState env cpId pdId mId msId (py_upper currency_pair)
      (py_lower period) seqs none lastBar.Close now st =
      st ++ (List.range 5).flatMap (fun i =>
        [⟨cpId, pdId, mId, match_date_to_period (py_lower period) i now,
          (get_multiple_predictions env (py_upper currency_pair) (py_lower period)
            seqs none).getD i 0, lastBar.Close⟩,
         ⟨cpId, pdId, msId, match_date_to_period (py_lower period) i now,
          (get_multiple_predictions env (py_upper currency_pair) (py_lower period)
            seqs none).getD i 0, lastBar.Close⟩]) := by
    simp only [recomputeState]
    exact foldl_creates cpId pdId mId msId (py_lower period) now
      (get_multiple_predictions env (py_upper currency_pair) (py_lower period) seqs none)
      (get_multiple_predictions env (py_upper currency_pair) (py_lower period) seqs none)
      lastBar.Close hne (List.range 5) st hnone hinj (List.nodup_range 5)
  rw [predict_eq_ok env st currency_pair period data none now cpId pdId mId msId lastBar
    seqs hcp hpd hm hms hd hpre, if_neg hcond, if_pos hart]
  refine ⟨_, rfl, rfl, ?_, ?_⟩
  · simp only [hstate, readOut]
    rw [get_all_predictions_append, get_all_predictions_append, hfreshP, hfreshS,
      get_all_flatMap_plain cpId pdId mId msId (py_lower period) now
        (get_multiple_predictions env (py_upper currency_pair) (py_lower period) seqs none)
        (get_multiple_predictions env (py_upper currency_pair) (py_lower period) seqs none)
        lastBar.Close hne (List.range 5),
      get_all_flatMap_sent cpId pdId mId msId (py_lower period) now
        (get_multiple_predictions env (py_upper currency_pair) (py_lower period) seqs none)
        (get_multiple_predictions env (py_upper currency_pair) (py_lower period) seqs none)
        lastBar.Close hne (List.range 5)]
    simp [List.map_map]
  · intro i hi
    constructor
    · exact find_foldl_value_plain cpId pdId mId msId (py_lower period) now
        (get_multiple_predictions env (py_upper currency_pair) (py_lower period) seqs none)
        (get_multiple_predictions env (py_upper currency_pair) (py_lower period) seqs none)
        lastBar.Close (List.range 5) st i (List.nodup_range 5)
        (List.mem_range.mpr hi) (fun j hj => hinj j hj i (List.mem_range.mpr hi)) hne
    · exact find_foldl_value_sent cpId pdId mId msId (py_lower period) now
        (get_multiple_predictions env (py_upper currency_pair) (py_lower period) seqs none)
        (get_multiple_predictions env (py_upper currency_pair) (py_lower period) seqs none)
        lastBar.Close (List.range 5) st i (List.nodup_range 5)
        (List.mem_range.mpr hi) (fun j hj => hinj j hj i (List.mem_range.mpr hi)) hne

/-- C9 witness: with no sentiment score and fresh storage the call runs one
rollout and returns identical plain and sentiment series. -/
theorem C9_none_sentiment_copies_plain_witness :
    ∃ r, predict envDemo [] "EURUSD" "h1" barsDemo none 1704104220 = .ok r ∧
      r.inferCalls = 1 ∧
      r.out.LSTM_sentiment_predictions = r.out.LSTM_predictions := by
  obtain ⟨r, hok, hcalls, houteq, -⟩ := C9_none_sentiment_copies_plain envDemo []
    "EURUSD" "h1" barsDemo 1704104220 1 2 1 2 ⟨1, 2, 0, 7, 5⟩
    [⟨1, 1, 1, 3, 1⟩, ⟨1, 1, 1, 5, 1⟩, ⟨1, 2, 0, 7, 5⟩] (by decide) (by decide)
    (by decide) (by decide) (by decide) rfl (by decide) (Or.inr (by decide))
    (by decide) (by decide) (by decide)
  exact ⟨r, hok, hcalls, houteq⟩

/-- C9 counterexample: the original claim says the sentiment series returned
by a no-sentiment `predict` call equals the plain series.  On reachable
storage it does not: a first call at 09:05 with sentiment score 42 stores
differing sentiment rows for 09:00-13:00; a second call at 10:17 with no
score finds only 4 future rows, recomputes, copies the plain values into
both variants for 10:00-14:00 — yet the read-back of src/app.py lines
163-174 returns *all* rows of each triple, and the residual 09:00 sentiment
row still carries the sentiment-adjusted value, so the returned series
differ although the call ran a single rollout. -/
theorem C9_returned_series_counterexample :
    ∃ r1 r2,
      predict envDemo [] "EURUSD" "h1" barsDemo (some 42) 1704099900 = .ok r1 ∧
      predict envDemo r1.state "EURUSD" "h1" barsDemo none 1704104220 = .ok r2 ∧
      r2.inferCalls = 1 ∧
      r2.out.LSTM_sentiment_predictions ≠ r2.out.LSTM_predictions := by
  refine ⟨_, _, rfl, rfl, rfl, ?_⟩
  decide

/-- After a recompute anchored at `a` (or on a state already serving that
anchor), a well-formed storage that holds an `a`-anchored row at each of the
five target timestamps satisfies the serve-cached condition of
src/app.py line 120: at least five future rows exist from the aligned
timestamp and the earliest of them carries anchor `a`. -/
lemma cache_cond_of_state (cpId pdId mId : Nat) (pd : String) (now : Nat) (a : Int)
    (st2 : List Pred) (hwf2 : WFState st2)
    (hge : ∀ j, j < 5 → match_date_to_period pd 0 now ≤ match_date_to_period pd j now)
    (hdne : ∀ i j : Nat, i < 5 → j < 5 → i ≠ j →
      match_date_to_period pd i now ≠ match_date_to_period pd j now)
    (hfind : ∀ j, j < 5 → ∃ r, get_prediction_by_date st2 cpId pdId mId
        (match_date_to_period pd j now) = some r ∧ r.last_live_value = a) :
    5 ≤ (get_n_future_predictions st2 cpId pdId mId
        (match_date_to_period pd 0 now) 5).length ∧
    (get_n_future_predictions st2 cpId pdId mId
        (match_date_to_period pd 0 now) 5).head?.map Pred.last_live_value = some a := by
  obtain ⟨r0, hf0, ha0⟩ := hfind 0 (by omega)
  obtain ⟨r1, hf1, ha1⟩ := hfind 1 (by omega)
  obtain ⟨r2, hf2, ha2⟩ := hfind 2 (by omega)
  obtain ⟨r3, hf3, ha3⟩ := hfind 3 (by omega)
  obtain ⟨r4, hf4, ha4⟩ := hfind 4 (by omega)
  have hk0 := key_of_find st2 cpId pdId mId _ r0 hf0
  have hk1 := key_of_find st2 cpId pdId mId _ r1 hf1
  have hk2 := key_of_find st2 cpId pdId mId _ r2 hf2
  have hk3 := key_of_find st2 cpId pdId mId _ r3 hf3
  have hk4 := key_of_find st2 cpId pdId mId _ r4 hf4
  obtain ⟨e0a, e0b, e0c, e0d⟩ : r0.pairId = cpId ∧ r0.periodId = pdId ∧ r0.modelId = mId ∧
      r0.date = match_date_to_period pd 0 now := by
    simpa [Pred.key, Prod.ext_iff] using hk0.1
  obtain ⟨e1a, e1b, e1c, e1d⟩ : r1.pairId = cpId ∧ r1.periodId = pdId ∧ r1.modelId = mId ∧
      r1.date = match_date_to_period pd 1 now := by
    simpa [Pred.key, Prod.ext_iff] using hk1.1
  obtain ⟨e2a, e2b, e2c, e2d⟩ : r2.pairId = cpId ∧ r2.periodId = pdId ∧ r2.modelId = mId ∧
      r2.date = match_date_to_period pd 2 now := by
    simpa [Pred.key, Prod.ext_iff] using hk2.1
  obtain ⟨e3a, e3b, e3c, e3d⟩ : r3.pairId = cpId ∧ r3.periodId = pdId ∧ r3.modelId = mId ∧
      r3.date = match_date_to_period pd 3 now := by
    simpa [Pred.key, Prod.ext_iff] using hk3.1
  obtain ⟨e4a, e4b, e4c, e4d⟩ : r4.pairId = cpId ∧ r4.periodId = pdId ∧ r4.modelId = mId ∧
      r4.date = match_date_to_period pd 4 now := by
    simpa [Pred.key, Prod.ext_iff] using hk4.1
  have hmemF : ∀ (r : Pred) (j : Nat), j < 5 →
      r.pairId = cpId → r.periodId = pdId → r.modelId = mId →
      r.date = match_date_to_period pd j now → r ∈ st2 →
      r ∈ st2.filter (fun p => decide (p.pairId = cpId ∧ p.periodId = pdId ∧
        p.modelId = mId ∧ match_date_to_period pd 0 now ≤ p.date)) := by
    intro r j hj h1 h2 h3 h4 hmem
    refine List.mem_filter.mpr ⟨hmem, ?_⟩
    simp only [decide_eq_true_eq]
    exact ⟨h1, h2, h3, by rw [h4]; exact hge j hj⟩
  have hm0 := hmemF r0 0 (by omega) e0a e0b e0c e0d hk0.2
  have hm1 := hmemF r1 1 (by omega) e1a e1b e1c e1d hk1.2
  have hm2 := hmemF r2 2 (by omega) e2a e2b e2c e2d hk2.2
  have hm3 := hmemF r3 3 (by omega) e3a e3b e3c e3d hk3.2
  have hm4 := hmemF r4 4 (by omega) e4a e4b e4c e4d hk4.2
  have hneij : ∀ (x y : Pred) (i j : Nat), i < 5 → j < 5 →
      x.date = match_date_to_period pd i now →
      y.date = match_date_to_period pd j now → i ≠ j → x ≠ y := by
    intro x y i j hi hj hx hy hij heq
    apply hdne i j hi hj hij
    rw [← hx, ← hy, heq]
  have hnd : List.Nodup [r0, r1, r2, r3, r4] := by
    have n01 := hneij r0 r1 0 1 (by omega) (by omega) e0d e1d (by omega)
    have n02 := hneij r0 r2 0 2 (by omega) (by omega) e0d e2d (by omega)
    have n03 := hneij r0 r3 0 3 (by omega) (by omega) e0d e3d (by omega)
    have n04 := hneij r0 r4 0 4 (by omega) (by omega) e0d e4d (by omega)
    have n12 := hneij r1 r2 1 2 (by omega) (by omega) e1d e2d (by omega)
    have n13 := hneij r1 r3 1 3 (by omega) (by omega) e1d e3d (by omega)
    have n14 := hneij r1 r4 1 4 (by omega) (by omega) e1d e4d (by omega)
    have n23 := hneij r2 r3 2 3 (by omega) (by omega) e2d e3d (by omega)
    have n24 := hneij r2 r4 2 4 (by omega) (by omega) e2d e4d (by omega)
    have n34 := hneij r3 r4 3 4 (by omega) (by omega) e3d e4d (by omega)
    simp only [List.nodup_cons, List.mem_cons, List.not_mem_nil, or_false, List.nodup_nil,
      and_true]
    push_neg
    exact ⟨⟨n01, n02, n03, n04⟩, ⟨n12, n13, n14⟩, ⟨n23, n24⟩, n34, not_false⟩
  have hsub : [r0, r1, r2, r3, r4] ⊆ st2.filter (fun p =>
      decide (p.pairId = cpId ∧ p.periodId = pdId ∧ p.modelId = mId ∧
        match_date_to_period pd 0 now ≤ p.date)) := by
    intro x hx
    simp only [List.mem_cons, List.not_mem_nil, or_false] at hx
    rcases hx with rfl | rfl | rfl | rfl | rfl
    · exact hm0
    · exact hm1
    · exact hm2
    · exact hm3
    · exact hm4
  have hlenF : 5 ≤ (st2.filter (fun p =>
      decide (p.pairId = cpId ∧ p.periodId = pdId ∧ p.modelId = mId ∧
        match_date_to_period pd 0 now ≤ p.date))).length := by
    have hle := (List.Nodup.subperm hnd hsub).length_le
    simpa using hle
  constructor
  · simp only [get_n_future_predictions]
    rw [List.length_take, length_sortByDate]
    omega
  · simp only [get_n_future_predictions]
    rw [head_of_take 5 _ (by omega)]
    cases hhead : (sortByDate (st2.filter (fun p =>
        decide (p.pairId = cpId ∧ p.periodId = pdId ∧ p.modelId = mId ∧
          match_date_to_period pd 0 now ≤ p.date)))).head? with
    | none =>
      exfalso
      have hnil := List.head?_eq_none_iff.mp hhead
      have hlen0 := length_sortByDate (st2.filter (fun p =>
        decide (p.pairId = cpId ∧ p.periodId = pdId ∧ p.modelId = mId ∧
          match_date_to_period pd 0 now ≤ p.date)))
      rw [hnil] at hlen0
      simp only [List.length_nil] at hlen0
      omega
    | some q =>
      obtain ⟨hqmemF, hqmin⟩ := head_min_sortByDate _ q hhead
      obtain ⟨hqmem, hqP⟩ := List.mem_filter.mp hqmemF
      simp only [decide_eq_true_eq] at hqP
      obtain ⟨q1, q2, q3, q4⟩ := hqP
      have hqd : q.date = match_date_to_period pd 0 now := by
        have hle := hqmin r0 hm0
        rw [e0d] at hle
        omega
      have hqk : q.key = r0.key := by
        simp [Pred.key, Prod.ext_iff, q1, q2, q3, hqd, e0a, e0b, e0c, e0d]
      have hq_eq : q = r0 := WFState_key_inj st2 hwf2 q r0 hqmem hk0.2 hqk
      rw [hq_eq]
      simp only [Option.map_some', Option.some.injEq]
      exact ha0



/-- C4: idempotence of the forecast request: two successive `predict` calls
with identical bars (same anchor Close) and no intervening bucket-boundary
crossing (the aligned offset-0 timestamp is unchanged) give a second call
that performs zero rollouts, leaves storage untouched, and returns output
identical to the first call, whether the first call was itself served from
cache or recomputed.  Stated under sufficient history, so that the first
call's recompute (when taken) can succeed and populate the cache. -/
theorem C4_idempotent_request (env : Env) (st : List Pred)
    (currency_pair period : String) (data : List OHLCData) (s : Option Int)
    (now1 now2 : Nat) (cpId pdId mId msId : Nat) (lastBar : OHLCData)
    (hcp : lookupName env.pairs (py_upper currency_pair) = some cpId)
    (hpd : lookupName env.periods (py_lower period) = some pdId)
    (hm : lookupName env.models "LSTM" = some mId)
    (hms : lookupName env.models "LSTM_Sentiment" = some msId)
    (hd : data.getLast? = some lastBar)
    (hart : (py_upper currency_pair, py_lower period) ∈ env.artifacts)
    (hhist : env.windowLength + env.warmupLength ≤ data.length)
    (hper : py_lower period = "d1" ∨ py_lower period = "h1")
    (hwf : WFState st)
    (hb : match_date_to_period (py_lower period) 0 now1 =
      match_date_to_period (py_lower period) 0 now2) :
    ∃ r1 r2, predict env st currency_pair period data s now1 = .ok r1 ∧
      predict env r1.state currency_pair period data s now2 = .ok r2 ∧
      r2.inferCalls = 0 ∧ r2.state = r1.state ∧ r2.out = r1.out := by
  have hge : ∀ j, j < 5 → match_date_to_period (py_lower period) 0 now1 ≤
      match_date_to_period (py_lower period) j now1 := by
    intro j _
    rcases hper with h | h
    · rw [h, match_date_d1, match_date_d1]
      omega
    · rw [h, match_date_h1, match_date_h1]
      omega
  have hdne : ∀ i j : Nat, i < 5 → j < 5 → i ≠ j →
      match_date_to_period (py_lower period) i now1 ≠
        match_date_to_period (py_lower period) j now1 := by
    intro i j _ _ hij
    rcases hper with h | h
    · rw [h, match_date_d1, match_date_d1]
      omega
    · rw [h, match_date_h1, match_date_h1]
      omega
  have hpre : preprocess_data env data = .ok (data.drop (data.length - env.windowLength)) := by
    unfold preprocess_data
    rw [if_pos hhist]
  rw [predict_eq_ok env st currency_pair period data s now1 cpId pdId mId msId lastBar
    (data.drop (data.length - env.windowLength)) hcp hpd hm hms hd hpre]
  by_cases hcond1 : (5 ≤ (get_n_future_predictions st cpId pdId mId
      (match_date_to_period (py_lower period) 0 now1) 5).length ∧
    (get_n_future_predictions st cpId pdId mId
      (match_date_to_period (py_lower period) 0 now1) 5).head?.map
        Pred.last_live_value = some lastBar.Close)
  · rw [if_pos hcond1]
    have hcond2 : (5 ≤ (get_n_future_predictions st cpId pdId mId
        (match_date_to_period (py_lower period) 0 now2) 5).length ∧
      (get_n_future_predictions st cpId pdId mId
        (match_date_to_period (py_lower period) 0 now2) 5).head?.map
          Pred.last_live_value = some lastBar.Close) := by
      rw [← hb]
      exact hcond1
    have hcall2 : predict env st currency_pair period data s now2 =
        .ok ⟨readOut st cpId pdId mId msId, st, 0⟩ := by
      rw [predict_eq env st currency_pair period data s now2 cpId pdId mId msId lastBar
        hcp hpd hm hms hd, if_pos hcond2]
    exact ⟨⟨readOut st cpId pdId mId msId, st, 0⟩,
      ⟨readOut st cpId pdId mId msId, st, 0⟩, rfl, hcall2, rfl, rfl, rfl⟩
  · rw [if_neg hcond1, if_pos hart]
    have hwf2 : WFState (recomputeState env cpId pdId mId msId (py_upper currency_pair)
        (py_lower period) (data.drop (data.length - env.windowLength)) s lastBar.Close now1 st) := by
      simp only [recomputeState]
      exact WFState_foldl _ _ _ _ _ _ _ _ _ _ _ hwf
    have hfind : ∀ j, j < 5 → ∃ r, get_prediction_by_date
        (recomputeState env cpId pdId mId msId (py_upper currency_pair)
          (py_lower period) (data.drop (data.length - env.windowLength)) s lastBar.Close now1 st)
        cpId pdId mId (match_date_to_period (py_lower period) j now1) = some r ∧
        r.last_live_value = lastBar.Close := by
      intro j hj
      simp only [recomputeState]
      exact find_foldl_anchor_in cpId pdId mId msId (py_lower period) now1
        (get_multiple_predictions env (py_upper currency_pair) (py_lower period) (data.drop (data.length - env.windowLength)) none)
        (sentimentSeries env (py_upper currency_pair) (py_lower period) (data.drop (data.length - env.windowLength)) s)
        lastBar.Close (List.range 5) st mId (Or.inl rfl) j (List.mem_range.mpr hj)
    have hcond2 := cache_cond_of_state cpId pdId mId (py_lower period) now1
      lastBar.Close
      (recomputeState env cpId pdId mId msId (py_upper currency_pair)
        (py_lower period) (data.drop (data.length - env.windowLength)) s lastBar.Close now1 st)
      hwf2 hge hdne hfind
    rw [hb] at hcond2
    have hcall2 : predict env (recomputeState env cpId pdId mId msId
        (py_upper currency_pair) (py_lower period) (data.drop (data.length - env.windowLength)) s lastBar.Close now1 st)
        currency_pair period data s now2 =
        .ok ⟨readOut (recomputeState env cpId pdId mId msId (py_upper currency_pair)
            (py_lower period) (data.drop (data.length - env.windowLength)) s lastBar.Close now1 st) cpId pdId mId msId,
          recomputeState env cpId pdId mId msId (py_upper currency_pair)
            (py_lower period) (data.drop (data.length - env.windowLength)) s lastBar.Close now1 st, 0⟩ := by
      rw [predict_eq env (recomputeState env cpId pdId mId msId (py_upper currency_pair)
          (py_lower period) (data.drop (data.length - env.windowLength)) s lastBar.Close now1 st)
        currency_pair period data s now2 cpId pdId mId msId lastBar
        hcp hpd hm hms hd, if_pos hcond2]
    exact ⟨⟨readOut (recomputeState env cpId pdId mId msId (py_upper currency_pair)
          (py_lower period) (data.drop (data.length - env.windowLength)) s lastBar.Close now1 st) cpId pdId mId msId,
        recomputeState env cpId pdId mId msId (py_upper currency_pair)
          (py_lower period) (data.drop (data.length - env.windowLength)) s lastBar.Close now1 st, inferCallCount s⟩,
      ⟨readOut (recomputeState env cpId pdId mId msId (py_upper currency_pair)
          (py_lower period) (data.drop (data.length - env.windowLength)) s lastBar.Close now1 st) cpId pdId mId msId,
        recomputeState env cpId pdId mId msId (py_upper currency_pair)
          (py_lower period) (data.drop (data.length - env.windowLength)) s lastBar.Close now1 st, 0⟩,
      rfl, hcall2, rfl, rfl, rfl⟩

/-- C4 witness: a recompute at 10:17 followed by a repeat request at 10:30
of the same hour is served from cache with identical output. -/
theorem C4_idempotent_request_witness :
    ∃ r1 r2, predict envDemo [] "EURUSD" "h1" barsDemo none 1704104220 = .ok r1 ∧
      predict envDemo r1.state "EURUSD" "h1" barsDemo none 1704105000 = .ok r2 ∧
      r2.inferCalls = 0 ∧ r2.state = r1.state ∧ r2.out = r1.out :=
  C4_idempotent_request envDemo [] "EURUSD" "h1" barsDemo none 1704104220 1704105000
    1 2 1 2 ⟨1, 2, 0, 7, 5⟩ (by decide) (by decide) (by decide) (by decide) (by decide)
    (by decide) (by decide) (Or.inr (by decide)) List.Pairwise.nil (by decide)

end ForexServer
